import Mathlib

/-!
Shallow embedding of burnman/modified_tait.py (Modified Tait equation of
state, Holland and Powell 2011), together with theorems settling the
specification of that module against the code. Python floats are modelled
as real numbers, float pow with a real exponent as Real.rpow, float pow
with an exact integral exponent as the monoid power, and Python division
by the total division of ℝ (whose value at a zero denominator is zero).
The one place where the source can divide by zero is tracked by an
explicit divisor definition, intVdP_divisor.
-/

namespace ModifiedTait

noncomputable section

/-- Standard temperature, 298.15 K (line 10 of modified_tait.py). -/
def T_0 : ℝ := 298.15

/-- Landau phase-transition parameters of a mineral phase; present in the
params dictionary only for phases with a Landau order-disorder transition. -/
structure LandauParams where
  landau_Tc : ℝ
  landau_Smax : ℝ
  landau_Vmax : ℝ

/-- Parameter record of one mineral phase, the params dictionary of the
source. The optional Landau fields are an Option, and the presence of the
BW_deltaH key (only its presence is ever tested) is a Boolean flag. -/
structure Params where
  V_0 : ℝ
  K_0 : ℝ
  Kprime_0 : ℝ
  Kdprime_0 : ℝ
  S_0 : ℝ
  n : ℝ
  H_0 : ℝ
  a_0 : ℝ
  Cp0 : ℝ
  Cp1 : ℝ
  Cp2 : ℝ
  Cp3 : ℝ
  landau : Option LandauParams
  hasBW_deltaH : Bool

/-- Einstein temperature (lines 12-17). -/
def einst (S n : ℝ) : ℝ := 10636 / (S / n + 6.44)

/-- Einstein function describing the behaviour of ak (lines 19-24); the
exponent 2.0 of the source is an exact integer square. -/
def ksi (u : ℝ) : ℝ := u ^ 2 * Real.exp u / (Real.exp u - 1) ^ 2

/-- Tait constants a, b, c (lines 26-30). -/
def tait_constants (params : Params) : ℝ × ℝ × ℝ :=
  ((1 + params.Kprime_0) / (1 + params.Kprime_0 + params.K_0 * params.Kdprime_0),
   params.Kprime_0 / params.K_0 - params.Kdprime_0 / (1 + params.Kprime_0),
   (1 + params.Kprime_0 + params.K_0 * params.Kdprime_0) /
     (params.Kprime_0 * params.Kprime_0 + params.Kprime_0 -
       params.K_0 * params.Kdprime_0))

/-- First Tait constant of a record. -/
def tc_a (params : Params) : ℝ := (tait_constants params).1

/-- Second Tait constant of a record. -/
def tc_b (params : Params) : ℝ := (tait_constants params).2.1

/-- Third Tait constant of a record. -/
def tc_c (params : Params) : ℝ := (tait_constants params).2.2

/-- Modified Tait equation EQ 2 (lines 32-42): pressure as a function of
the compression argument x. -/
def modified_tait (x : ℝ) (params : Params) : ℝ :=
  (((x + tc_a params - 1) / tc_a params) ^ ((-1 : ℝ) / tc_c params) - 1) /
    tc_b params

/-- Relative thermal pressure, EQ 12 - 1 (lines 213-218, the name-mangled
private method of MTaitBase). -/
def rel_thermal_pressure (T : ℝ) (params : Params) : ℝ :=
  params.a_0 * params.K_0 * einst params.S_0 params.n /
      ksi (einst params.S_0 params.n / T_0) *
    (1 / (Real.exp (einst params.S_0 params.n / T) - 1) -
      1 / (Real.exp (einst params.S_0 params.n / T_0) - 1))

/-- Volume, EQ 12 (lines 62-71). -/
def volume (pressure temperature : ℝ) (params : Params) : ℝ :=
  (1 - tc_a params *
      (1 - (1 + tc_b params * (pressure - rel_thermal_pressure temperature params)) ^
        ((-1 : ℝ) * tc_c params))) * params.V_0

/-- Volume formula exactly as the specification writes it in section 4.3:
x equals one minus a times (one minus (1 + b(P - Pth)) to the minus c),
and V equals x times V_0. -/
def spec_volume (P T : ℝ) (params : Params) : ℝ :=
  (1 - tc_a params *
      (1 - (1 + tc_b params * (P - rel_thermal_pressure T params)) ^
        (-tc_c params))) * params.V_0

/-- Isothermal bulk modulus, EQ 13+2 (lines 73-81). The volume argument is
accepted and never used, exactly as in the source. -/
def isothermal_bulk_modulus (pressure temperature volume : ℝ)
    (params : Params) : ℝ :=
  params.K_0 *
    (1 + tc_b params * (pressure - rel_thermal_pressure temperature params)) *
    (tc_a params + (1 - tc_a params) *
      (1 + tc_b params * (pressure - rel_thermal_pressure temperature params)) ^
        tc_c params)

/-- Shear modulus stub (lines 84-90): not implemented, returns 0. -/
def shear_modulus (pressure temperature volume : ℝ) (params : Params) : ℝ := 0

/-- Heat capacity at constant volume stub (lines 93-98): returns 0. -/
def heat_capacity_v (pressure temperature volume : ℝ) (params : Params) : ℝ := 0

/-- Thermal expansivity (lines 100-111). The volume argument is accepted
and never used, exactly as in the source. -/
def thermal_expansivity (pressure temperature volume : ℝ)
    (params : Params) : ℝ :=
  params.a_0 * ksi (einst params.S_0 params.n / temperature) /
      ksi (einst params.S_0 params.n / T_0) * 1 /
    ((1 + tc_b params * (pressure - rel_thermal_pressure temperature params)) *
      (tc_a params + (1 - tc_a params) *
        (1 + tc_b params * (pressure - rel_thermal_pressure temperature params)) ^
          tc_c params))

/-- Heat capacity at ambient pressure (lines 115-121). -/
def heat_capacity_p0 (temperature : ℝ) (params : Params) : ℝ :=
  params.Cp0 + params.Cp1 * temperature + params.Cp2 * temperature ^ ((-2 : ℝ)) +
    params.Cp3 * temperature ^ ((-0.5 : ℝ))

/-- Heat capacity at constant pressure stub (lines 124-133): returns 0. -/
def heat_capacity_p (pressure temperature volume : ℝ) (params : Params) : ℝ := 0

/-- Adiabatic bulk modulus stub (lines 136-146): returns 0. -/
def adiabatic_bulk_modulus (pressure temperature volume : ℝ)
    (params : Params) : ℝ := 0

/-- Grueneisen parameter stub (lines 52-60): returns 0. -/
def grueneisen_parameter (pressure temperature volume : ℝ)
    (params : Params) : ℝ := 0

/-- Heat capacity integral of gibbs (line 158). -/
def intCpdT (temperature : ℝ) (params : Params) : ℝ :=
  (params.Cp0 * temperature + 0.5 * params.Cp1 * temperature ^ 2 -
      params.Cp2 / temperature + 2 * params.Cp3 * Real.sqrt temperature) -
    (params.Cp0 * T_0 + 0.5 * params.Cp1 * T_0 * T_0 - params.Cp2 / T_0 +
      2 * params.Cp3 * Real.sqrt T_0)

/-- Entropy integral of gibbs (line 160). -/
def intCpoverTdT (temperature : ℝ) (params : Params) : ℝ :=
  (params.Cp0 * Real.log temperature + params.Cp1 * temperature -
      0.5 * params.Cp2 / temperature ^ 2 - 2 * params.Cp3 / Real.sqrt temperature) -
    (params.Cp0 * Real.log T_0 + params.Cp1 * T_0 - 0.5 * params.Cp2 / (T_0 * T_0) -
      2 * params.Cp3 / Real.sqrt T_0)

/-- Divisor of the inner fraction of the pressure integral on line 163 of
the source, namely b times (c - 1) times pressure. The source divides by
this expression unconditionally. -/
def intVdP_divisor (pressure : ℝ) (params : Params) : ℝ :=
  tc_b params * (tc_c params - 1) * pressure

/-- Pressure integral of gibbs, EQ 13 (line 163). -/
def intVdP (pressure temperature : ℝ) (params : Params) : ℝ :=
  pressure * params.V_0 *
    (1 - tc_a params +
      tc_a params *
          ((1 - tc_b params * rel_thermal_pressure temperature params) ^
              (1 - tc_c params) -
            (1 + tc_b params * (pressure - rel_thermal_pressure temperature params)) ^
              (1 - tc_c params)) /
        intVdP_divisor pressure params)

/-- Pressure-shifted Landau critical temperature (line 169). -/
def landau_Tcstar (pressure : ℝ) (lp : LandauParams) : ℝ :=
  lp.landau_Tc + lp.landau_Vmax / lp.landau_Smax * pressure

/-- Reference Landau order parameter (line 171). -/
def landau_Q_0 (lp : LandauParams) : ℝ :=
  ((lp.landau_Tc - T_0) / lp.landau_Tc) ^ ((1 : ℝ) / 4)

/-- Landau order parameter at the query state (lines 176-179). -/
def landau_Q (pressure temperature : ℝ) (lp : LandauParams) : ℝ :=
  if landau_Tcstar pressure lp - temperature > 0 then
    ((landau_Tcstar pressure lp - temperature) / lp.landau_Tc) ^ ((1 : ℝ) / 4)
  else 0

/-- Order-disorder contribution to gibbs (lines 166-196). The final factor
1 is the quantity Vt, set to the literal 1.0 on line 186 of the source.
The Bragg-Williams branch and the branch with no disorder fields both
contribute zero. -/
def Gdisord (pressure temperature : ℝ) (params : Params) : ℝ :=
  match params.landau with
  | some lp =>
      lp.landau_Tc * lp.landau_Smax *
          (landau_Q_0 lp ^ 2 - landau_Q_0 lp ^ 6 / 3) -
        lp.landau_Smax *
          (landau_Tcstar pressure lp * landau_Q pressure temperature lp ^ 2 -
            lp.landau_Tc * landau_Q pressure temperature lp ^ 6 / 3) -
        temperature *
          (lp.landau_Smax *
            (landau_Q_0 lp ^ 2 - landau_Q pressure temperature lp ^ 2)) +
        pressure * (lp.landau_Vmax * landau_Q_0 lp ^ 2 * 1)
  | none => 0

/-- True exactly when gibbs takes the Bragg-Williams branch of lines
189-194, the branch whose body prints a diagnostic warning. -/
def gibbs_prints_BW_warning (params : Params) : Bool :=
  params.landau.isNone && params.hasBW_deltaH

/-- Gibbs free energy (lines 148-200). -/
def gibbs (pressure temperature : ℝ) (params : Params) : ℝ :=
  params.H_0 + intCpdT temperature params -
      temperature * (params.S_0 + intCpoverTdT temperature params) +
    intVdP pressure temperature params + Gdisord pressure temperature params

/-- Pressure from temperature and volume, EQ B7 (lines 203-209). The first
argument handed to modified_tait is V_0 divided by the volume, exactly as
on line 208 of the source. -/
def pressure (temperature volume : ℝ) (params : Params) : ℝ :=
  modified_tait (params.V_0 / volume) params +
    rel_thermal_pressure temperature params

/-- Sample parameter record with Tait constants (3/4, 2/3, 2), zero
thermal expansion and zero heat-capacity coefficients, used to evaluate
the model at concrete states. -/
def sampleParams : Params :=
  { V_0 := 1, K_0 := 1, Kprime_0 := 1, Kdprime_0 := 2/3,
    S_0 := 1, n := 1, H_0 := 0, a_0 := 0,
    Cp0 := 0, Cp1 := 0, Cp2 := 0, Cp3 := 0,
    landau := none, hasBW_deltaH := false }

/-- Sample record carrying the Bragg-Williams flag and no Landau fields. -/
def sampleBWParams : Params :=
  { sampleParams with hasBW_deltaH := true }

/-- Sample record with the Landau fields of the specification example,
critical temperature 500 and maximal entropy 10. -/
def sampleLandauParams : Params :=
  { sampleParams with
      landau := some { landau_Tc := 500, landau_Smax := 10, landau_Vmax := 2 } }

/-- Relative thermal pressure vanishes at the reference temperature: the
two exponential terms of line 217 coincide at T equal to T_0. -/
theorem rel_thermal_pressure_T0 (p : Params) :
    rel_thermal_pressure T_0 p = 0 := by
  unfold rel_thermal_pressure
  simp

/-- Claim C3: the source has no special case for zero pressure. The
divisor b times (c - 1) times pressure of the fraction inside the pressure
integral on line 163 is exactly zero whenever the pressure is zero, for
every parameter record, so evaluating gibbs at zero pressure performs a
division by zero (a ZeroDivisionError or a NaN in the source) instead of
returning the finite limit the specification asks for. -/
theorem intVdP_divisor_zero_at_zero_pressure (p : Params) :
    intVdP_divisor 0 p = 0 := by
  simp [intVdP_divisor]

/-- Claim C5: the volume of lines 62-71 is exactly the closed form of the
specification, x times V_0 with x equal to one minus a times (one minus
(1 + b(P - Pth)) to the minus c); no iteration or root-finding occurs. -/
theorem volume_matches_spec_formula (P T : ℝ) (p : Params) :
    volume P T p = spec_volume P T p := by
  unfold volume spec_volume
  rw [neg_one_mul]

/-- Claim C6: tait_constants returns exactly the three advertised
formulas, for every record and with no validation of the inputs. -/
theorem tait_constants_formula (p : Params) :
    tait_constants p =
      ((1 + p.Kprime_0) / (1 + p.Kprime_0 + p.K_0 * p.Kdprime_0),
       p.Kprime_0 / p.K_0 - p.Kdprime_0 / (1 + p.Kprime_0),
       (1 + p.Kprime_0 + p.K_0 * p.Kdprime_0) /
         (p.Kprime_0 ^ 2 + p.Kprime_0 - p.K_0 * p.Kdprime_0)) := by
  simp [tait_constants, pow_two]

/-- Claim C7: the isothermal bulk modulus ignores the supplied volume
argument; two calls differing only in the volume agree. -/
theorem isothermal_bulk_modulus_ignores_volume (P T V1 V2 : ℝ) (p : Params) :
    isothermal_bulk_modulus P T V1 p = isothermal_bulk_modulus P T V2 p := rfl

/-- Claim C8: the five unimplemented stub operations return exactly zero
on every input. -/
theorem stub_operations_return_zero (P T V : ℝ) (p : Params) :
    shear_modulus P T V p = 0 ∧ heat_capacity_v P T V p = 0 ∧
      heat_capacity_p P T V p = 0 ∧ adiabatic_bulk_modulus P T V p = 0 ∧
      grueneisen_parameter P T V p = 0 :=
  ⟨rfl, rfl, rfl, rfl, rfl⟩

/-- Claim C10: the thermal expansivity ignores the supplied volume
argument; two calls differing only in the volume agree. -/
theorem thermal_expansivity_ignores_volume (P T V1 V2 : ℝ) (p : Params) :
    thermal_expansivity P T V1 p = thermal_expansivity P T V2 p := rfl

/-- Claim C9: on a record carrying the Bragg-Williams flag and no Landau
fields, gibbs takes the warning branch and adds a zero disordering
contribution, so the result equals the Gibbs energy of the same record
with the flag removed. -/
theorem bw_branch_warns_and_adds_zero (P T : ℝ) (p : Params)
    (h1 : p.landau = none) (h2 : p.hasBW_deltaH = true) :
    gibbs_prints_BW_warning p = true ∧
      gibbs P T p = gibbs P T { p with hasBW_deltaH := false } := by
  refine ⟨by simp [gibbs_prints_BW_warning, h1, h2], ?_⟩
  cases p
  rfl

/-- Witness for claim C9 at the concrete Bragg-Williams sample record. -/
theorem bw_branch_witness :
    gibbs_prints_BW_warning sampleBWParams = true ∧
      gibbs 0 T_0 sampleBWParams =
        gibbs 0 T_0 { sampleBWParams with hasBW_deltaH := false } :=
  bw_branch_warns_and_adds_zero 0 T_0 sampleBWParams rfl rfl

/-- Claim C4: at the reference state, volume V_0 and temperature T_0, the
pressure operation returns exactly zero on every record satisfying the
record invariants: the thermal pressure vanishes at T_0 and the modified
Tait term vanishes at compression argument one. -/
theorem pressure_at_reference (p : Params) (hV : p.V_0 ≠ 0)
    (hK : 1 + p.Kprime_0 ≠ 0)
    (hd : 1 + p.Kprime_0 + p.K_0 * p.Kdprime_0 ≠ 0) :
    pressure T_0 p.V_0 p = 0 := by
  have ha : tc_a p ≠ 0 := by
    simp only [tc_a, tait_constants]
    exact div_ne_zero hK hd
  unfold pressure modified_tait
  rw [rel_thermal_pressure_T0, div_self hV]
  have h1 : (1 : ℝ) + tc_a p - 1 = tc_a p := by ring
  rw [h1, div_self ha, Real.one_rpow]
  simp

/-- Witness for claim C4 at the concrete sample record. -/
theorem pressure_at_reference_witness :
    pressure T_0 sampleParams.V_0 sampleParams = 0 :=
  pressure_at_reference sampleParams (by norm_num [sampleParams])
    (by norm_num [sampleParams]) (by norm_num [sampleParams])

/-- First Tait constant of the sample record. -/
theorem sample_tc_a : tc_a sampleParams = 3 / 4 := by
  norm_num [tc_a, tait_constants, sampleParams]

/-- Second Tait constant of the sample record. -/
theorem sample_tc_b : tc_b sampleParams = 2 / 3 := by
  norm_num [tc_b, tait_constants, sampleParams]

/-- Third Tait constant of the sample record. -/
theorem sample_tc_c : tc_c sampleParams = 2 := by
  norm_num [tc_c, tait_constants, sampleParams]

/-- The sample record has zero thermal expansion coefficient, so its
relative thermal pressure vanishes at every temperature. -/
theorem sample_Pth (T : ℝ) : rel_thermal_pressure T sampleParams = 0 := by
  simp [rel_thermal_pressure, sampleParams]

/-- Real power with exponent minus one times two is the inverse square on
nonnegative bases. -/
theorem rpow_neg_one_mul_two (x : ℝ) (hx : 0 ≤ x) :
    x ^ ((-1 : ℝ) * 2) = (x ^ 2)⁻¹ := by
  have h : ((-1 : ℝ) * 2) = -((2 : ℕ) : ℝ) := by norm_num
  rw [h, Real.rpow_neg hx, Real.rpow_natCast]

/-- Volume of the sample record at pressure one and temperature T_0. -/
theorem sample_volume : volume 1 T_0 sampleParams = 13 / 25 := by
  unfold volume
  rw [sample_tc_a, sample_tc_b, sample_tc_c, sample_Pth]
  rw [rpow_neg_one_mul_two ((1 : ℝ) + 2 / 3 * (1 - 0)) (by norm_num)]
  norm_num [sampleParams]

/-- Pressure of the sample record at temperature T_0 and the volume that
the volume operation returns for pressure one. -/
theorem sample_roundtrip_value :
    pressure T_0 (13 / 25) sampleParams =
      ((29 / 13 : ℝ) ^ ((-1 : ℝ) / 2) - 1) / (2 / 3) := by
  unfold pressure modified_tait
  rw [sample_tc_a, sample_tc_b, sample_tc_c, sample_Pth]
  norm_num [sampleParams]

/-- Claim C1: the round trip fails on the code. At the sample record,
pressure one and temperature T_0, feeding the volume back into the
pressure operation does not return the original pressure: the source
hands V_0 divided by the volume to modified_tait, whose algebra inverts
the ratio volume divided by V_0, so the composition returns a negative
number instead of one. -/
theorem roundtrip_fails_at_sample :
    pressure T_0 (volume 1 T_0 sampleParams) sampleParams ≠ 1 := by
  rw [sample_volume, sample_roundtrip_value]
  have hq : (29 / 13 : ℝ) ^ ((-1 : ℝ) / 2) < 1 :=
    Real.rpow_lt_one_of_one_lt_of_neg (by norm_num) (by norm_num)
  have h2 : ((29 / 13 : ℝ) ^ ((-1 : ℝ) / 2) - 1) / (2 / 3) < 0 :=
    div_neg_of_neg_of_pos (by linarith) (by norm_num)
  exact ne_of_lt (by linarith)

/-- In contrast to line 208 of the source, handing the ratio volume over
V_0 to modified_tait does invert the volume relation exactly, on every
record with nonzero reference volume and Tait constants and a nonnegative
Tait base: this is the round trip the specification asserts. -/
theorem modified_tait_inverts_volume (P T : ℝ) (p : Params)
    (hV0 : p.V_0 ≠ 0) (ha : tc_a p ≠ 0) (hb : tc_b p ≠ 0) (hc : tc_c p ≠ 0)
    (hbase : 0 ≤ 1 + tc_b p * (P - rel_thermal_pressure T p)) :
    modified_tait (volume P T p / p.V_0) p + rel_thermal_pressure T p = P := by
  set Pth := rel_thermal_pressure T p with hPth
  set z := 1 + tc_b p * (P - Pth) with hz
  have hxv : volume P T p / p.V_0 =
      1 - tc_a p * (1 - z ^ ((-1 : ℝ) * tc_c p)) := by
    unfold volume
    rw [mul_div_assoc, div_self hV0, mul_one]
  rw [hxv]
  unfold modified_tait
  have h1 : (1 - tc_a p * (1 - z ^ ((-1 : ℝ) * tc_c p)) + tc_a p - 1) / tc_a p =
      z ^ ((-1 : ℝ) * tc_c p) := by
    field_simp
    ring
  rw [h1]
  have h2 : (z ^ ((-1 : ℝ) * tc_c p)) ^ ((-1 : ℝ) / tc_c p) = z := by
    rw [← Real.rpow_mul hbase]
    have h3 : (-1 : ℝ) * tc_c p * ((-1 : ℝ) / tc_c p) = 1 := by
      field_simp
    rw [h3, Real.rpow_one]
  rw [h2, hz]
  field_simp

/-- Claim C2, counterexample: at the sample record, whose reference
enthalpy is zero and reference entropy is one, gibbs at zero pressure and
temperature T_0 is minus 298.15, not the reference enthalpy. -/
theorem gibbs_at_reference_ne_H0 :
    gibbs 0 T_0 sampleParams ≠ sampleParams.H_0 := by
  norm_num [gibbs, intCpdT, intCpoverTdT, intVdP, Gdisord, sampleParams, T_0]

/-- Claim C2 as amended: at zero pressure and temperature T_0, gibbs
returns the reference enthalpy minus T_0 times the reference entropy. The
heat-capacity integrals vanish, the pressure integral carries the factor
pressure and vanishes, and the Landau correction, evaluated with the
order parameter at its reference value, is exactly zero. -/
theorem gibbs_at_reference (p : Params)
    (h : ∀ lp, p.landau = some lp → T_0 < lp.landau_Tc) :
    gibbs 0 T_0 p = p.H_0 - T_0 * p.S_0 := by
  have h1 : intCpdT T_0 p = 0 := by unfold intCpdT; ring
  have h2 : intCpoverTdT T_0 p = 0 := by unfold intCpoverTdT; ring
  have h3 : intVdP 0 T_0 p = 0 := by simp [intVdP]
  have h4 : Gdisord 0 T_0 p = 0 := by
    cases hl : p.landau with
    | none => simp [Gdisord, hl]
    | some lp =>
      have htc : T_0 < lp.landau_Tc := h lp hl
      have hstar : landau_Tcstar 0 lp = lp.landau_Tc := by
        unfold landau_Tcstar; ring
      have hq : landau_Q 0 T_0 lp = landau_Q_0 lp := by
        unfold landau_Q landau_Q_0
        simp only [hstar]
        rw [if_pos (show lp.landau_Tc - T_0 > 0 by linarith)]
      simp only [Gdisord, hl]
      rw [hq, hstar]
      ring
  unfold gibbs
  rw [h1, h2, h3, h4]
  ring

/-- Witness for claim C2 as amended, at the Landau sample record. -/
theorem gibbs_at_reference_witness :
    gibbs 0 T_0 sampleLandauParams =
      sampleLandauParams.H_0 - T_0 * sampleLandauParams.S_0 :=
  gibbs_at_reference sampleLandauParams (fun lp hlp => by
    have h0 : sampleLandauParams.landau =
        some { landau_Tc := 500, landau_Smax := 10, landau_Vmax := 2 } := rfl
    rw [h0] at hlp
    have h1 : ({ landau_Tc := 500, landau_Smax := 10, landau_Vmax := 2 } :
        LandauParams) = lp := Option.some_inj.mp hlp
    rw [← h1]
    norm_num [T_0])

end

end ModifiedTait
